import Mathlib

/-
  Verification development for the Chikwex-Infra repository.

  Shallow embedding of:
  * the order-service HTTP handlers in
    Assignment7/CompleteCI-CDPipeline/microservices/user-service/server.js
    (order creation, status update, cancellation, retrieval);
  * the user handlers (register, get-by-id, list) of the same file;
  * the cart handlers in
    Assignment7/CompleteCI-CDPipeline/microservices/cart-service/server.js;
  * the SQS redelivery / dead-letter policy and the Step Functions retry
    policy declared in ChikwexServerlessAssign3/configure-aws.sh
    (the runtime that interprets those declarations is not part of the
    repository, so its semantics are modelled from the specification,
    with the numeric constants taken from configure-aws.sh).

  JavaScript numbers are modelled as exact rationals; `uuidv4()` is
  modelled as an injective fresh-identifier supply threaded through the
  store state; timestamps (`new Date().toISOString()`) are modelled as an
  abstract clock value passed to each handler.
-/

/-- JsVal models a JavaScript request-body value as far as the handlers
inspect one: null/undefined (merged), numbers, strings and booleans. -/
inductive JsVal where
  | vnull
  | vnum (q : ℚ)
  | vstr (s : String)
  | vbool (b : Bool)
deriving DecidableEq

/-- Truthiness of a JavaScript value (the `!x` checks in the handlers). -/
def JsVal.truthy : JsVal → Bool
  | .vnull => false
  | .vnum q => decide (q ≠ 0)
  | .vstr s => decide (s ≠ "")
  | .vbool b => b

/-- The JavaScript loose comparison `x == null` (matches null and undefined,
both collapsed into vnull here). -/
def JsVal.isNullish : JsVal → Bool
  | .vnull => true
  | _ => false

/-- The JavaScript check `typeof x === 'number'`. -/
def JsVal.isNumber : JsVal → Bool
  | .vnum _ => true
  | _ => false

/-- Numeric value of a JsVal; only consulted after `isNumber` has been
established by the handlers' validation. -/
def JsVal.numVal : JsVal → ℚ
  | .vnum q => q
  | _ => 0

/-- The JavaScript check `Number.isInteger x`. -/
def JsVal.isIntegerNum : JsVal → Bool
  | .vnum q => decide (q.den = 1)
  | _ => false

/-- The JavaScript conversion `Number(x)`.  String parsing is abstracted to
0 (no claim depends on the value `Number` gives a string). -/
def jsToNumber : JsVal → JsVal
  | .vnum q => .vnum q
  | .vnull => .vnum 0
  | .vbool b => .vnum (if b then 1 else 0)
  | .vstr _ => .vnum 0

/-- The JavaScript `+` as used by `existing.quantity += quantity`:
numeric addition on numbers; the non-numeric cases (string concatenation,
NaN) are collapsed to vnull, and no claim is invoked on them. -/
def jsAdd : JsVal → JsVal → JsVal
  | .vnum p, .vnum q => .vnum (p + q)
  | _, _ => .vnull

/-- updateFirst mirrors the JavaScript pattern `arr.find(p)` followed by an
in-place mutation of the found element: the first element satisfying `p`
is replaced by its image under `f`, everything else is untouched. -/
def updateFirst {α : Type} (p : α → Bool) (f : α → α) : List α → List α
  | [] => []
  | a :: rest => if p a then f a :: rest else a :: updateFirst p f rest

/-- One item of an order-creation request, fields as raw JS values
(order-service `server.js`, POST /api/orders item validation). -/
structure OrderItem where
  productId : JsVal
  name : JsVal
  price : JsVal
  quantity : JsVal
deriving DecidableEq

/-- Check `!item.productId || !item.name || item.price == null ||
item.quantity == null` from the per-item validation loop. -/
def itemFieldsMissing (i : OrderItem) : Bool :=
  !i.productId.truthy || !i.name.truthy || i.price.isNullish || i.quantity.isNullish

/-- Check `typeof item.price !== 'number' || item.price < 0`. -/
def itemPriceBad (i : OrderItem) : Bool :=
  !i.price.isNumber || decide (i.price.numVal < 0)

/-- Check `!Number.isInteger(item.quantity) || item.quantity < 1`. -/
def itemQuantityBad (i : OrderItem) : Bool :=
  !i.quantity.isIntegerNum || decide (i.quantity.numVal < 1)

/-- The per-item validation loop of POST /api/orders: returns the first
error message, or none when every item passes. -/
def validateItems : List OrderItem → Option String
  | [] => none
  | i :: rest =>
    if itemFieldsMissing i then some "Each item must have productId, name, price, and quantity"
    else if itemPriceBad i then some "Item price must be a non-negative number"
    else if itemQuantityBad i then some "Item quantity must be a positive integer"
    else validateItems rest

/-- Order record as built and stored by POST /api/orders. -/
structure Order where
  orderId : String
  userId : JsVal
  items : List OrderItem
  shippingAddress : JsVal
  total : ℚ
  status : String
  createdAt : ℕ
  updatedAt : ℕ
deriving DecidableEq

/-- Request body of POST /api/orders; `items = none` models an absent or
non-array `items` field (`!items || !Array.isArray(items)`). -/
structure CreateOrderReq where
  userId : JsVal
  items : Option (List OrderItem)
  shippingAddress : JsVal
deriving DecidableEq

/-- The reduce in POST /api/orders:
`items.reduce((sum, item) => sum + item.price * item.quantity, 0)`. -/
def sumItems (items : List OrderItem) : ℚ :=
  items.foldl (fun s i => s + i.price.numVal * i.quantity.numVal) 0

/-- `Math.round(total * 100) / 100` on exact rationals (JS `Math.round`
is floor of x + 1/2, which is Mathlib's `round`). -/
def roundCents (q : ℚ) : ℚ := ((round (q * 100) : ℤ) : ℚ) / 100

/-- In-memory state of the order service: the `orders` array plus the
counter driving the fresh-uuid supply that models `uuidv4()`. -/
structure OrderStore where
  orders : List Order
  nextUuid : ℕ
deriving DecidableEq

/-- Models `uuidv4()`: an injective supply of opaque identifier strings. -/
def freshUuid (n : ℕ) : String := String.mk ('u' :: List.replicate n 'x')

/-- HTTP response of the order handlers: an error with its status code, or
a success code (200/201) carrying the order serialized in the body. -/
inductive OrderResp where
  | err (code : ℕ) (msg : String)
  | ok (code : ℕ) (order : Order)
deriving DecidableEq

/-- HTTP status code of a response. -/
def respCode : OrderResp → ℕ
  | .err c _ => c
  | .ok c _ => c

/-- orderId carried in a successful response body, if any. -/
def respOrderId : OrderResp → Option String
  | .ok _ o => some o.orderId
  | .err _ _ => none

/-- The order object built on the success path of POST /api/orders. -/
def mkOrder (req : CreateOrderReq) (items : List OrderItem) (now : ℕ) (n : ℕ) : Order :=
  { orderId := freshUuid n
    userId := req.userId
    items := items
    shippingAddress := req.shippingAddress
    total := roundCents (sumItems items)
    status := "pending"
    createdAt := now
    updatedAt := now }

/-- POST /api/orders (order-service `server.js`): validation chain, total
computation, push onto the `orders` array, 201 with the order. -/
def createOrder (req : CreateOrderReq) (now : ℕ) (st : OrderStore) : OrderStore × OrderResp :=
  if req.userId.truthy = false then (st, .err 400 "userId is required")
  else
    match req.items with
    | none => (st, .err 400 "items must be a non-empty array")
    | some items =>
      if items.isEmpty then (st, .err 400 "items must be a non-empty array")
      else if req.shippingAddress.truthy = false then (st, .err 400 "shippingAddress is required")
      else
        match validateItems items with
        | some msg => (st, .err 400 msg)
        | none =>
          ({ orders := st.orders ++ [mkOrder req items now st.nextUuid], nextUuid := st.nextUuid + 1 },
           .ok 201 (mkOrder req items now st.nextUuid))

/-- The VALID_STATUSES array of the order service. -/
def VALID_STATUSES : List String :=
  ["pending", "confirmed", "processing", "shipped", "delivered", "cancelled"]

/-- PUT /api/orders/:orderId/status: checks only that the requested status
is present and a member of VALID_STATUSES, then overwrites `status` and
`updatedAt` of the first order with the given id, whatever its current
status is. -/
def updateOrderStatus (oid status : String) (now : ℕ) (st : OrderStore) : OrderStore × OrderResp :=
  if status = "" then (st, .err 400 "status is required")
  else if VALID_STATUSES.contains status = false then (st, .err 400 "Invalid status")
  else
    match st.orders.find? (fun x => x.orderId == oid) with
    | none => (st, .err 404 "Order not found")
    | some o =>
      ({ st with
          orders := updateFirst (fun x => x.orderId == oid)
            (fun x => { x with status := status, updatedAt := now }) st.orders },
       .ok 200 { o with status := status, updatedAt := now })

/-- Error message of the cancel handler (the JS template interpolates the
current status). -/
def cancelErrMsg (s : String) : String := "Cannot cancel order with status " ++ s

/-- POST /api/orders/:orderId/cancel: 404 when absent, 400 when the current
status is neither pending nor confirmed, else sets status to cancelled. -/
def cancelOrder (oid : String) (now : ℕ) (st : OrderStore) : OrderStore × OrderResp :=
  match st.orders.find? (fun x => x.orderId == oid) with
  | none => (st, .err 404 "Order not found")
  | some o =>
    if (o.status == "pending" || o.status == "confirmed") = false then
      (st, .err 400 (cancelErrMsg o.status))
    else
      ({ st with
          orders := updateFirst (fun x => x.orderId == oid)
            (fun x => { x with status := "cancelled", updatedAt := now }) st.orders },
       .ok 200 { o with status := "cancelled", updatedAt := now })

/-- GET /api/orders/:orderId: pure read, no state change. -/
def getOrder (oid : String) (st : OrderStore) : OrderResp :=
  match st.orders.find? (fun x => x.orderId == oid) with
  | none => .err 404 "Order not found"
  | some o => .ok 200 o

/-- GET /api/orders/user/:userId: pure read, no state change (the URL
parameter is a string compared with `===` against the stored userId). -/
def getUserOrders (uid : String) (st : OrderStore) : List Order :=
  st.orders.filter (fun o => o.userId == JsVal.vstr uid)

/-- Fields of an order other than `status` and `updatedAt`; the frame the
status-changing handlers must preserve. -/
def orderFrame (o : Order) : String × JsVal × List OrderItem × JsVal × ℚ × ℕ :=
  (o.orderId, o.userId, o.items, o.shippingAddress, o.total, o.createdAt)

/-- Item-level invalidity exactly as claim C4 words it: `items` absent or
empty, or some item whose price is not a non-negative number, or some item
whose quantity is not a positive integer. -/
def badItemsReq (req : CreateOrderReq) : Bool :=
  match req.items with
  | none => true
  | some items => items.isEmpty || items.any (fun i => itemPriceBad i || itemQuantityBad i)

/-- Cart entry as stored by the cart service (cart-service `server.js`);
`price` and `quantity` are stored through `Number(...)` on insertion but
may be overwritten by the raw result of the `+=` on the add-merge path. -/
structure CartItem where
  productId : JsVal
  name : JsVal
  price : JsVal
  quantity : JsVal
deriving DecidableEq

/-- Request body of POST /api/cart/:userId/items. -/
structure AddItemReq where
  productId : JsVal
  name : JsVal
  price : JsVal
  quantity : JsVal
deriving DecidableEq

/-- Check `!productId || !name || price == null || quantity == null` of the
add-item handler. -/
def addFieldsMissing (req : AddItemReq) : Bool :=
  !req.productId.truthy || !req.name.truthy || req.price.isNullish || req.quantity.isNullish

/-- POST /api/cart/:userId/items: if an entry with the same productId
exists, `existing.quantity += quantity`, otherwise push a new entry with
`Number(price)` and `Number(quantity)`.  The second component is the HTTP
status code (the body is the userId plus the resulting items list). -/
def addCartItem (req : AddItemReq) (items : List CartItem) : List CartItem × ℕ :=
  if addFieldsMissing req then (items, 400)
  else
    match items.find? (fun it => it.productId == req.productId) with
    | some _ =>
      (updateFirst (fun it => it.productId == req.productId)
        (fun it => { it with quantity := jsAdd it.quantity req.quantity }) items, 200)
    | none =>
      (items ++ [{ productId := req.productId, name := req.name,
                   price := jsToNumber req.price, quantity := jsToNumber req.quantity }], 201)

/-- PUT /api/cart/:userId/items/:productId: the productId arrives as a URL
parameter, hence a string compared with `===` against the stored value;
sets `quantity` to `Number(quantity)` on the found entry. -/
def setCartQuantity (pid : String) (q : JsVal) (items : List CartItem) : List CartItem × ℕ :=
  if q.isNullish then (items, 400)
  else
    match items.find? (fun it => it.productId == JsVal.vstr pid) with
    | none => (items, 404)
    | some _ =>
      (updateFirst (fun it => it.productId == JsVal.vstr pid)
        (fun it => { it with quantity := jsToNumber q }) items, 200)

/-- DELETE /api/cart/:userId/items/:productId: `findIndex` then
`splice(index, 1)`, i.e. removal of the first matching entry. -/
def removeCartItem (pid : String) (items : List CartItem) : List CartItem × ℕ :=
  match items.find? (fun it => it.productId == JsVal.vstr pid) with
  | none => (items, 404)
  | some _ => (items.eraseP (fun it => it.productId == JsVal.vstr pid), 200)

/-- DELETE /api/cart/:userId: `carts.delete(userId)`; the next `getCart`
recreates the empty list. -/
def clearCart (_items : List CartItem) : List CartItem := []

/-- One cart operation of the exposed mutating endpoints (carts of
different users live under different Map keys and are independent; the
model follows one user's entry). -/
inductive CartOp where
  | add (req : AddItemReq)
  | setQty (pid : String) (q : JsVal)
  | remove (pid : String)
  | clear
deriving DecidableEq

/-- State reached by one cart operation (responses dropped). -/
def applyCartOp (op : CartOp) (items : List CartItem) : List CartItem :=
  match op with
  | .add req => (addCartItem req items).1
  | .setQty pid q => (setCartQuantity pid q items).1
  | .remove pid => (removeCartItem pid items).1
  | .clear => clearCart items

/-- State of a user's cart after a sequence of operations, starting from
the empty cart `getCart` creates. -/
def applyCartOps (ops : List CartOp) : List CartItem :=
  ops.foldl (fun acc op => applyCartOp op acc) []

/-- Cart invariant of claim C9: at most one entry per productId. -/
def uniquePids (items : List CartItem) : Prop :=
  (items.map (fun it => it.productId)).Nodup

/-- User record as stored by the user service (user-service `server.js`,
register handler); `password` holds the bcrypt hash. -/
structure User where
  id : ℕ
  username : String
  email : String
  password : String
  createdAt : ℕ
deriving DecidableEq

/-- The `safeUser` shape produced by destructuring the password away:
`const (password, ...safeUser) = user`. -/
structure SafeUser where
  id : ℕ
  username : String
  email : String
  createdAt : ℕ
deriving DecidableEq

/-- Projection dropping the stored password, as the handlers do before
responding. -/
def User.toSafe (u : User) : SafeUser :=
  { id := u.id, username := u.username, email := u.email, createdAt := u.createdAt }

/-- In-memory state of the user service: the `users` array and `nextId`. -/
structure UserStore where
  users : List User
  nextId : ℕ
deriving DecidableEq

/-- HTTP response of the user handlers that the claims inspect. -/
inductive UserResp where
  | err (code : ℕ) (msg : String)
  | okUser (code : ℕ) (u : SafeUser)
  | okList (us : List SafeUser)
deriving DecidableEq

/-- POST /api/users/register: require the three fields, reject duplicate
emails, store the hashed password, respond 201 with the safe user.  The
bcrypt hash is an external function, passed in as `hash`. -/
def registerUser (username email password : String) (hash : String → String) (now : ℕ)
    (st : UserStore) : UserStore × UserResp :=
  if username = "" || email = "" || password = "" then
    (st, .err 400 "username, email, and password are required")
  else if (st.users.find? (fun u => u.email == email)).isSome then
    (st, .err 409 "A user with that email already exists")
  else
    let u : User := { id := st.nextId, username := username, email := email,
                      password := hash password, createdAt := now }
    ({ users := st.users ++ [u], nextId := st.nextId + 1 }, .okUser 201 u.toSafe)

/-- GET /api/users/:id: find by parsed integer id, respond with the safe
user. -/
def getUser (id : ℕ) (st : UserStore) : UserResp :=
  match st.users.find? (fun u => u.id == id) with
  | none => .err 404 "User not found"
  | some u => .okUser 200 u.toSafe

/-- GET /api/users: map every stored user to its safe shape. -/
def listUsers (st : UserStore) : UserResp :=
  .okList (st.users.map User.toSafe)

/-- States that differ at most in stored password fields (their
password-erased images agree). -/
def samePublic (s t : List User) : Prop :=
  s.map User.toSafe = t.map User.toSafe

/-- maxReceiveCount of the OrderProcessingQueue redrive policy declared in
ChikwexServerlessAssign3/configure-aws.sh. -/
def maxReceiveCount : ℕ := 3

/-- Terminal order statuses of the serverless workflow (spec §4.2). -/
def terminalStatuses : List String := ["COMPLETED", "FAILED", "CANCELLED"]

/-- Whether a workflow order status is terminal. -/
def isTerminal (s : String) : Bool := terminalStatuses.contains s

/-- Location of a queued order-processing message. -/
inductive MsgLoc where
  | queued
  | deleted
  | quarantined
deriving DecidableEq

/-- Modelled from the spec: the SQS consumer loop of §4.1 is not in the
repository (configure-aws.sh only declares the queue and its redrive
policy), so the per-message redelivery state is modelled from the spec's
words: the message's location, how often it has been received, and the
associated order's persisted status. -/
structure MsgState where
  loc : MsgLoc
  receiveCount : ℕ
  orderStatus : String
deriving DecidableEq

/-- Initial state of a freshly enqueued message for an order in the given
(non-terminal) status. -/
def initMsg (st : String) : MsgState :=
  { loc := .queued, receiveCount := 0, orderStatus := st }

/-- Modelled from the spec: one receive/processing cycle.  A receive
increments the receive count; if the count now exceeds maxReceiveCount the
message moves to the Dead-Letter Quarantine without touching the order.
Otherwise the processing attempt either drives the order to some status
(deleting the message exactly when that status is terminal) or crashes
(`none`), leaving the message to reappear after the visibility timeout. -/
def receiveStep (outcome : Option String) (s : MsgState) : MsgState :=
  match s.loc with
  | .deleted => s
  | .quarantined => s
  | .queued =>
    if maxReceiveCount < s.receiveCount + 1 then
      { s with loc := .quarantined, receiveCount := s.receiveCount + 1 }
    else
      match outcome with
      | none => { s with receiveCount := s.receiveCount + 1 }
      | some st =>
        if isTerminal st then
          { loc := .deleted, receiveCount := s.receiveCount + 1, orderStatus := st }
        else
          { s with receiveCount := s.receiveCount + 1, orderStatus := st }

/-- A whole redelivery history: fold the receive cycles. -/
def runQueue (outs : List (Option String)) (s : MsgState) : MsgState :=
  outs.foldl (fun s o => receiveStep o s) s

/-- Invariant tying a message's location to its receive count and the
order's status. -/
def msgInv (s : MsgState) : Prop :=
  (s.loc = MsgLoc.queued → s.receiveCount ≤ maxReceiveCount ∧ isTerminal s.orderStatus = false)
  ∧ (s.loc = MsgLoc.deleted → isTerminal s.orderStatus = true)
  ∧ (s.loc = MsgLoc.quarantined →
      s.receiveCount = maxReceiveCount + 1 ∧ isTerminal s.orderStatus = false)

/-- The three capability-invocation steps of the workflow (spec §4.2; the
source document names them ProcessPayment, UpdateInventory and
CompensatePayment). -/
inductive StepName where
  | reservePayment
  | reserveInventory
  | compensatePayment
deriving DecidableEq

/-- Retry parameters of a Step Functions Retry block. -/
structure RetryPolicy where
  intervalSeconds : ℚ
  maxAttempts : ℕ
  backoffRate : ℚ
deriving DecidableEq

/-- The Retry block declared in ChikwexServerlessAssign3/configure-aws.sh:
IntervalSeconds 2, MaxAttempts 3, BackoffRate 2.0. -/
def defaultRetryPolicy : RetryPolicy :=
  { intervalSeconds := 2, maxAttempts := 3, backoffRate := 2 }

/-- Every capability step carries the same declared retry policy. -/
def stepRetryPolicy : StepName → RetryPolicy := fun _ => defaultRetryPolicy

/-- Modelled from the spec: delay before retry number n (0-indexed),
intervalSeconds times backoffRate to the power n. -/
def retryDelay (p : RetryPolicy) (n : ℕ) : ℚ :=
  p.intervalSeconds * p.backoffRate ^ n

/-- The full sequence of backoff delays a step can incur. -/
def retrySchedule (p : RetryPolicy) : List ℚ :=
  (List.range p.maxAttempts).map (retryDelay p)

/-- Outcome trichotomy of one capability invocation (spec §4.3). -/
inductive StepOutcome where
  | success
  | transient
  | permanent
deriving DecidableEq

/-- Modelled from the spec: number of retries performed for given
per-attempt outcomes; attempt n is retried exactly when it failed with a
transient error and fewer than maxAttempts retries have been used
(a permanent decline or a success stops retrying). -/
def retriesUsed (p : RetryPolicy) (outcomes : ℕ → StepOutcome) : ℕ :=
  ((List.range p.maxAttempts).takeWhile (fun n => outcomes n == StepOutcome.transient)).length

/-- Empty order store. -/
def emptyStore : OrderStore := { orders := [], nextUuid := 0 }

/-- The price 29.99, given in lowest terms so that it reduces in the
kernel. -/
def price2999 : ℚ := ⟨2999, 100, by norm_num, by norm_num⟩

/-- The price 49.99 in lowest terms. -/
def price4999 : ℚ := ⟨4999, 100, by norm_num, by norm_num⟩

/-- The sub-cent price 0.001 in lowest terms. -/
def priceTiny : ℚ := ⟨1, 1000, by norm_num, by norm_num⟩

/-- Items of Scenario A of the spec: 2 units at 29.99 and 1 unit at 49.99. -/
def scenarioAItems : List OrderItem :=
  [ { productId := .vstr "prodA", name := .vstr "Widget",
      price := .vnum price2999, quantity := .vnum 2 },
    { productId := .vstr "prodB", name := .vstr "Gadget",
      price := .vnum price4999, quantity := .vnum 1 } ]

/-- A valid creation request carrying the Scenario A items. -/
def scenarioAReq : CreateOrderReq :=
  { userId := .vstr "user1", items := some scenarioAItems, shippingAddress := .vstr "addr" }

/-- The single item priced 0.001 with quantity 1. -/
def tinyItems : List OrderItem :=
  [ { productId := .vstr "p", name := .vstr "n",
      price := .vnum priceTiny, quantity := .vnum 1 } ]

/-- A valid creation request with a single sub-cent price (0.001). -/
def tinyPriceReq : CreateOrderReq :=
  { userId := .vstr "user1", items := some tinyItems, shippingAddress := .vstr "addr" }

/-- A creation request whose `items` field is absent. -/
def noItemsReq : CreateOrderReq :=
  { userId := .vstr "user1", items := none, shippingAddress := .vstr "addr" }

/-- An order sitting in the terminal status delivered. -/
def deliveredOrder : Order :=
  { orderId := "o1", userId := .vstr "user1", items := [], shippingAddress := .vstr "addr",
    total := 5, status := "delivered", createdAt := 0, updatedAt := 0 }

/-- Store holding only the delivered order. -/
def deliveredStore : OrderStore := { orders := [deliveredOrder], nextUuid := 1 }

/-- An order in status processing. -/
def processingOrder : Order :=
  { orderId := "o2", userId := .vstr "user1", items := [], shippingAddress := .vstr "addr",
    total := 5, status := "processing", createdAt := 0, updatedAt := 0 }

/-- Store holding only the processing order. -/
def processingStore : OrderStore := { orders := [processingOrder], nextUuid := 1 }

/-- An order in status pending. -/
def pendingOrder : Order :=
  { orderId := "o3", userId := .vstr "user1", items := [], shippingAddress := .vstr "addr",
    total := 5, status := "pending", createdAt := 0, updatedAt := 0 }

/-- Store holding only the pending order. -/
def pendingStore : OrderStore := { orders := [pendingOrder], nextUuid := 1 }

/-- A cart add-item request for product p1, quantity 1. -/
def cartReq1 : AddItemReq :=
  { productId := .vstr "p1", name := .vstr "Apple", price := .vnum 5, quantity := .vnum 1 }

/-- A second add-item request for the same product p1, quantity 2. -/
def cartReq2 : AddItemReq :=
  { productId := .vstr "p1", name := .vstr "Apple", price := .vnum 5, quantity := .vnum 2 }

/-- The cart after adding cartReq1 to an empty cart. -/
def cartAfterFirst : List CartItem := (addCartItem cartReq1 []).1

/-- Two users equal except for the stored password hash. -/
def alice1 : User :=
  { id := 1, username := "alice", email := "alice@example.com", password := "hashA", createdAt := 0 }

/-- Same public fields as alice1, different stored password hash. -/
def alice2 : User :=
  { id := 1, username := "alice", email := "alice@example.com", password := "hashB", createdAt := 0 }

/-- price2999 denotes 29.99. -/
theorem price2999_eq : price2999 = 2999/100 := by
  have h1 : price2999.num = 2999 := rfl
  have h2 : price2999.den = 100 := rfl
  rw [← Rat.num_div_den price2999, h1, h2]
  norm_num

/-- price4999 denotes 49.99. -/
theorem price4999_eq : price4999 = 4999/100 := by
  have h1 : price4999.num = 4999 := rfl
  have h2 : price4999.den = 100 := rfl
  rw [← Rat.num_div_den price4999, h1, h2]
  norm_num

/-- priceTiny denotes 0.001. -/
theorem priceTiny_eq : priceTiny = 1/1000 := by
  have h1 : priceTiny.num = 1 := rfl
  have h2 : priceTiny.den = 1000 := rfl
  rw [← Rat.num_div_den priceTiny, h1, h2]
  norm_num

/-- The Scenario A item sum rounds (in fact is already) 109.97. -/
theorem scenarioA_total : roundCents (sumItems scenarioAItems) = 10997/100 := by
  have hs : sumItems scenarioAItems = 10997/100 := by
    simp only [sumItems, scenarioAItems, List.foldl, JsVal.numVal]
    rw [price2999_eq, price4999_eq]
    norm_num
  rw [roundCents, hs]
  norm_num [round_eq]

/-- The sub-cent item sum 0.001 rounds to 0. -/
theorem tiny_total : roundCents (sumItems tinyItems) = 0 := by
  have hs : sumItems tinyItems = 1/1000 := by
    simp only [sumItems, tinyItems, List.foldl, JsVal.numVal]
    rw [priceTiny_eq]
    norm_num
  rw [roundCents, hs]
  norm_num [round_eq]

/-- updateFirst preserves any projection the update function preserves,
index by index. -/
theorem updateFirst_getElem?_map {α β : Type} (p : α → Bool) (f : α → α) (g : α → β)
    (hg : ∀ a, g (f a) = g a) :
    ∀ (l : List α) (i : ℕ), ((updateFirst p f l)[i]?).map g = (l[i]?).map g := by
  intro l
  induction l with
  | nil => intro i; rfl
  | cons a rest ih =>
    intro i
    by_cases hp : p a = true
    · simp only [updateFirst, hp, if_pos]
      cases i with
      | zero => simp [hg]
      | succ j => simp
    · simp only [updateFirst, hp, if_neg, Bool.not_eq_true]
      cases i with
      | zero => simp
      | succ j => simpa using ih j

/-- updateFirst does not change the length of the list. -/
theorem updateFirst_length {α : Type} (p : α → Bool) (f : α → α) :
    ∀ l : List α, (updateFirst p f l).length = l.length := by
  intro l
  induction l with
  | nil => rfl
  | cons a rest ih =>
    by_cases hp : p a = true <;> simp [updateFirst, hp, ih]

/-- updateFirst leaves a whole map unchanged when the update function
preserves the mapped projection. -/
theorem updateFirst_map {α β : Type} (p : α → Bool) (f : α → α) (g : α → β)
    (hg : ∀ a, g (f a) = g a) :
    ∀ l : List α, (updateFirst p f l).map g = l.map g := by
  intro l
  induction l with
  | nil => rfl
  | cons a rest ih =>
    by_cases hp : p a = true <;> simp [updateFirst, hp, ih, hg]

/-- Finding again after updateFirst, when the update preserves the
predicate: the first hit is the image of the old first hit. -/
theorem find?_updateFirst {α : Type} (p : α → Bool) (f : α → α)
    (hp : ∀ a, p (f a) = p a) :
    ∀ l : List α, (updateFirst p f l).find? p = (l.find? p).map f := by
  intro l
  induction l with
  | nil => rfl
  | cons a rest ih =>
    by_cases hpa : p a = true
    · simp only [updateFirst, hpa, if_pos]
      rw [List.find?_cons_of_pos rest hpa, List.find?_cons_of_pos _ ((hp a).trans hpa)]
      rfl
    · simp only [updateFirst, hpa, if_neg, Bool.not_eq_true]
      rw [List.find?_cons_of_neg rest hpa, List.find?_cons_of_neg _ hpa]
      exact ih

/-- A list whose item validation succeeds has no item with a bad price or
a bad quantity. -/
theorem validateItems_none_no_bad :
    ∀ items : List OrderItem, validateItems items = none →
      items.any (fun i => itemPriceBad i || itemQuantityBad i) = false := by
  intro items
  induction items with
  | nil => intro _; rfl
  | cons i rest ih =>
    intro h
    simp only [validateItems] at h
    by_cases h1 : itemFieldsMissing i = true
    · simp [h1] at h
    · simp only [h1, if_neg, Bool.not_eq_true] at h
      by_cases h2 : itemPriceBad i = true
      · simp [h2] at h
      · simp only [h2, if_neg, Bool.not_eq_true] at h
        by_cases h3 : itemQuantityBad i = true
        · simp [h3] at h
        · simp only [h3, if_neg, Bool.not_eq_true] at h
          simp [List.any_cons, h2, h3, ih h]

/-- Shape of createOrder on the success path. -/
theorem createOrder_ok (req : CreateOrderReq) (now : ℕ) (st : OrderStore)
    (items : List OrderItem)
    (hi : req.items = some items) (hu : req.userId.truthy = true)
    (hs : req.shippingAddress.truthy = true) (hne : items.isEmpty = false)
    (hv : validateItems items = none) :
    createOrder req now st =
      ({ orders := st.orders ++ [mkOrder req items now st.nextUuid], nextUuid := st.nextUuid + 1 },
       .ok 201 (mkOrder req items now st.nextUuid)) := by
  simp [createOrder, hi, hu, hs, hne, hv]

/-- The fresh-identifier supply modelling uuidv4 is injective. -/
theorem freshUuid_inj {m n : ℕ} (h : freshUuid m = freshUuid n) : m = n := by
  have h1 : ('u' :: List.replicate m 'x') = ('u' :: List.replicate n 'x') := by
    simpa [freshUuid] using congrArg String.data h
  have h2 := congrArg List.length h1
  simpa using h2

/-- find? for a predicate that factors through the password-erased image
gives password-erased-equal results on samePublic states. -/
theorem find?_toSafe (q : SafeUser → Bool) :
    ∀ (s t : List User), s.map User.toSafe = t.map User.toSafe →
      (s.find? (fun u => q u.toSafe)).map User.toSafe
        = (t.find? (fun u => q u.toSafe)).map User.toSafe := by
  intro s
  induction s with
  | nil =>
    intro t h
    have : t = [] := by simpa [List.map_eq_nil_iff] using h.symm
    subst this; rfl
  | cons a rest ih =>
    intro t h
    cases t with
    | nil => simp at h
    | cons b bs =>
      simp only [List.map_cons, List.cons.injEq] at h
      obtain ⟨hab, hrest⟩ := h
      by_cases hq : q a.toSafe = true
      · rw [List.find?_cons_of_pos rest hq, List.find?_cons_of_pos bs (by rw [← hab]; exact hq)]
        simpa using hab
      · rw [List.find?_cons_of_neg rest hq, List.find?_cons_of_neg bs (by rw [← hab]; exact hq)]
        exact ih bs hrest

/-- One receive cycle preserves the message invariant. -/
theorem receiveStep_inv (out : Option String) (s : MsgState) (h : msgInv s) :
    msgInv (receiveStep out s) := by
  obtain ⟨hq, hd, hqr⟩ := h
  cases hloc : s.loc with
  | deleted => simpa [receiveStep, hloc] using ⟨hq, hd, hqr⟩
  | quarantined => simpa [receiveStep, hloc] using ⟨hq, hd, hqr⟩
  | queued =>
    obtain ⟨hrc, hnt⟩ := hq hloc
    simp only [receiveStep, hloc]
    by_cases hover : maxReceiveCount < s.receiveCount + 1
    · have : s.receiveCount = maxReceiveCount := Nat.le_antisymm hrc (Nat.lt_succ_iff.mp hover)
      simp [hover, msgInv, this, hnt]
    · simp only [hover, if_neg, Bool.not_eq_true]
      cases out with
      | none =>
        refine ⟨fun _ => ⟨?_, hnt⟩, by simp, by simp⟩
        exact Nat.le_of_not_lt hover
      | some st =>
        by_cases hterm : isTerminal st = true
        · simp [hterm, msgInv]
        · simp only [hterm, if_neg, Bool.not_eq_true]
          refine ⟨fun _ => ⟨Nat.le_of_not_lt hover, by simpa using hterm⟩, by simp, by simp⟩

/-- A whole redelivery history preserves the message invariant. -/
theorem runQueue_inv (outs : List (Option String)) (s : MsgState) (h : msgInv s) :
    msgInv (runQueue outs s) := by
  induction outs generalizing s with
  | nil => exact h
  | cons o rest ih => exact ih (receiveStep o s) (receiveStep_inv o s h)

/-- Cart operations preserve the one-entry-per-productId invariant. -/
theorem applyCartOp_unique (op : CartOp) (items : List CartItem) (h : uniquePids items) :
    uniquePids (applyCartOp op items) := by
  cases op with
  | add req =>
    simp only [applyCartOp, addCartItem]
    by_cases hm : addFieldsMissing req = true
    · simpa [hm] using h
    · simp only [hm, if_neg, Bool.not_eq_true]
      cases hfind : items.find? (fun it => it.productId == req.productId) with
      | some it =>
        simp only [uniquePids]
        rw [updateFirst_map (fun it : CartItem => it.productId == req.productId)
          (fun it : CartItem => { it with quantity := jsAdd it.quantity req.quantity })
          (fun it : CartItem => it.productId) (fun a => rfl)]
        exact h
      | none =>
        have hnotin : ∀ x ∈ items, (x.productId == req.productId) = false := by
          intro x hx
          have := List.find?_eq_none.mp hfind x hx
          simpa using this
        simp only [uniquePids, List.map_append, List.map_cons, List.map_nil]
        rw [List.nodup_append]
        refine ⟨h, List.nodup_singleton _, ?_⟩
        intro p hp hmem
        simp only [List.mem_singleton] at hmem
        obtain ⟨x, hx, hxp⟩ := List.mem_map.mp hp
        have := hnotin x hx
        rw [hxp, hmem] at this
        simp at this
  | setQty pid q =>
    simp only [applyCartOp, setCartQuantity]
    by_cases hq : q.isNullish = true
    · simpa [hq] using h
    · simp only [hq, if_neg, Bool.not_eq_true]
      cases hfind : items.find? (fun it => it.productId == JsVal.vstr pid) with
      | none => exact h
      | some it =>
        simp only [uniquePids]
        rw [updateFirst_map (fun it : CartItem => it.productId == JsVal.vstr pid)
          (fun it : CartItem => { it with quantity := jsToNumber q })
          (fun it : CartItem => it.productId) (fun a => rfl)]
        exact h
  | remove pid =>
    simp only [applyCartOp, removeCartItem]
    cases hfind : items.find? (fun it => it.productId == JsVal.vstr pid) with
    | none => exact h
    | some it =>
      exact List.Sublist.nodup
        (List.Sublist.map (fun it => it.productId) (List.eraseP_sublist items)) h
  | clear => exact List.nodup_nil

/-- Folding cart operations from a cart satisfying the invariant keeps it. -/
theorem applyCartOps_fold_unique (ops : List CartOp) :
    ∀ items : List CartItem, uniquePids items →
      uniquePids (ops.foldl (fun acc op => applyCartOp op acc) items) := by
  induction ops with
  | nil => intro items h; exact h
  | cons op rest ih =>
    intro items h
    exact ih (applyCartOp op items) (applyCartOp_unique op items h)




/-- C1 counterexample: the status-update handler happily moves an order
out of the terminal status delivered back to pending, so the observed
status sequences are not confined to the state-machine graph and terminal
statuses are not sticky. -/
theorem c1_counterexample :
    deliveredOrder.status = "delivered"
    ∧ (updateOrderStatus "o1" "pending" 1 deliveredStore).2
        = OrderResp.ok 200 { deliveredOrder with status := "pending", updatedAt := 1 }
    ∧ ((updateOrderStatus "o1" "pending" 1 deliveredStore).1.orders.map Order.status)
        = ["pending"] := by
  refine ⟨rfl, rfl, rfl⟩

/-- C1 (amended): the status-update handler enforces no transition
relation at all: whenever the requested status is a member of
VALID_STATUSES and the order exists, the update succeeds and overwrites
the current status with the requested one, regardless of what the current
status is (terminal or not) and regardless of adjacency in any state
graph; only membership in VALID_STATUSES is checked. -/
theorem c1_status_update_unrestricted (st : OrderStore) (oid status : String) (now : ℕ)
    (o : Order)
    (hfind : st.orders.find? (fun x => x.orderId == oid) = some o)
    (hvalid : VALID_STATUSES.contains status = true) :
    (updateOrderStatus oid status now st).2
      = OrderResp.ok 200 { o with status := status, updatedAt := now }
    ∧ (updateOrderStatus oid status now st).1.orders.find? (fun x => x.orderId == oid)
      = some { o with status := status, updatedAt := now } := by
  have hne : ¬status = "" := by
    intro h
    rw [h] at hvalid
    simp [VALID_STATUSES] at hvalid
  have hmem : status ∈ VALID_STATUSES := by simpa using hvalid
  have hfu := find?_updateFirst (fun x : Order => x.orderId == oid)
    (fun x : Order => { x with status := status, updatedAt := now }) (fun a => rfl) st.orders
  constructor
  · simp [updateOrderStatus, hne, hmem, hfind]
  · simp [updateOrderStatus, hne, hmem, hfind, hfu]

/-- C1 witness: a pending order is moved directly to shipped (skipping
every intermediate state) by one status update. -/
theorem c1_witness :
    (updateOrderStatus "o3" "shipped" 2 pendingStore).2
      = OrderResp.ok 200 { pendingOrder with status := "shipped", updatedAt := 2 }
    ∧ (updateOrderStatus "o3" "shipped" 2 pendingStore).1.orders.find?
        (fun x => x.orderId == "o3")
      = some { pendingOrder with status := "shipped", updatedAt := 2 } :=
  c1_status_update_unrestricted pendingStore "o3" "shipped" 2 pendingOrder rfl rfl

/-- C2 counterexample: an order in status processing cannot be cancelled:
the handler answers 400 and leaves the store unchanged, while the claim
says cancellation succeeds for PROCESSING (pre-payment) orders. -/
theorem c2_counterexample :
    processingOrder.status = "processing"
    ∧ (cancelOrder "o2" 1 processingStore).2
        = OrderResp.err 400 (cancelErrMsg "processing")
    ∧ (cancelOrder "o2" 1 processingStore).1 = processingStore := by
  refine ⟨rfl, rfl, rfl⟩

/-- C2 (amended): cancellation succeeds exactly when the order's current
status is pending or confirmed; for an order in any other status the
handler returns 400 and leaves the store (hence the order's status and
every other field) unchanged. -/
theorem c2_cancel_pending_confirmed (st : OrderStore) (oid : String) (now : ℕ) (o : Order)
    (hfind : st.orders.find? (fun x => x.orderId == oid) = some o) :
    ((o.status = "pending" ∨ o.status = "confirmed") →
      (cancelOrder oid now st).2
        = OrderResp.ok 200 { o with status := "cancelled", updatedAt := now }
      ∧ (cancelOrder oid now st).1.orders.find? (fun x => x.orderId == oid)
        = some { o with status := "cancelled", updatedAt := now })
    ∧ (¬(o.status = "pending" ∨ o.status = "confirmed") →
      (cancelOrder oid now st).2 = OrderResp.err 400 (cancelErrMsg o.status)
      ∧ (cancelOrder oid now st).1 = st) := by
  constructor
  · intro hok
    have hcond : (o.status == "pending" || o.status == "confirmed") = true := by
      cases hok with
      | inl h => simp [h]
      | inr h => simp [h]
    have hfu := find?_updateFirst (fun x : Order => x.orderId == oid)
      (fun x : Order => { x with status := "cancelled", updatedAt := now }) (fun a => rfl) st.orders
    constructor
    · simp [cancelOrder, hfind, hcond]
    · simp [cancelOrder, hfind, hcond, hfu]
  · intro hbad
    have hcond : (o.status == "pending" || o.status == "confirmed") = false := by
      rcases Decidable.em (o.status = "pending") with h1 | h1
      · exact absurd (Or.inl h1) hbad
      · rcases Decidable.em (o.status = "confirmed") with h2 | h2
        · exact absurd (Or.inr h2) hbad
        · simp [h1, h2]
    exact ⟨by simp [cancelOrder, hfind, hcond], by simp [cancelOrder, hfind, hcond]⟩

/-- C2 witness: a pending order is cancelled successfully, and the
processing order's cancellation is refused with the store unchanged. -/
theorem c2_witness :
    ((cancelOrder "o3" 2 pendingStore).2
      = OrderResp.ok 200 { pendingOrder with status := "cancelled", updatedAt := 2 }
      ∧ (cancelOrder "o3" 2 pendingStore).1.orders.find? (fun x => x.orderId == "o3")
        = some { pendingOrder with status := "cancelled", updatedAt := 2 })
    ∧ ((cancelOrder "o2" 2 processingStore).2 = OrderResp.err 400 (cancelErrMsg "processing")
      ∧ (cancelOrder "o2" 2 processingStore).1 = processingStore) :=
  ⟨(c2_cancel_pending_confirmed pendingStore "o3" 2 pendingOrder rfl).1 (Or.inl rfl),
   (c2_cancel_pending_confirmed processingStore "o2" 2 processingOrder rfl).2 (by decide)⟩

/-- C3 counterexample: the creation handler reads no idempotency key at
all; submitting the identical valid request twice leaves two order rows in
the store, with two distinct orderIds, instead of one row and the same
orderId twice. -/
theorem c3_counterexample :
    ((createOrder scenarioAReq 1 (createOrder scenarioAReq 0 emptyStore).1).1.orders.length = 2)
    ∧ (respOrderId (createOrder scenarioAReq 0 emptyStore).2
        ≠ respOrderId (createOrder scenarioAReq 1 (createOrder scenarioAReq 0 emptyStore).1).2) := by
  refine ⟨rfl, by decide⟩

/-- C3 (amended): order creation is not idempotent: the request body
carries no idempotency key and the handler performs no duplicate lookup;
every valid creation request appends one new order row with a freshly
generated orderId, so two identical valid requests leave two rows and
return two distinct orderIds. -/
theorem c3_creation_not_idempotent (req : CreateOrderReq) (now1 now2 : ℕ) (st : OrderStore)
    (items : List OrderItem)
    (hi : req.items = some items) (hu : req.userId.truthy = true)
    (hs : req.shippingAddress.truthy = true) (hne : items.isEmpty = false)
    (hv : validateItems items = none) :
    ((createOrder req now2 (createOrder req now1 st).1).1.orders.length
      = st.orders.length + 2)
    ∧ (respOrderId (createOrder req now1 st).2
        ≠ respOrderId (createOrder req now2 (createOrder req now1 st).1).2) := by
  have h1 := createOrder_ok req now1 st items hi hu hs hne hv
  have h2 := createOrder_ok req now2 (createOrder req now1 st).1 items hi hu hs hne hv
  constructor
  · rw [h2, h1]
    simp
  · rw [h1] at h2 ⊢
    rw [h2]
    simp only [respOrderId, mkOrder]
    intro h
    have := freshUuid_inj (Option.some.inj h)
    simp at this

/-- C3 witness: the Scenario A request submitted twice against the empty
store leaves two rows and two distinct orderIds. -/
theorem c3_witness :
    ((createOrder scenarioAReq 1 (createOrder scenarioAReq 0 emptyStore).1).1.orders.length
      = emptyStore.orders.length + 2)
    ∧ (respOrderId (createOrder scenarioAReq 0 emptyStore).2
        ≠ respOrderId (createOrder scenarioAReq 1 (createOrder scenarioAReq 0 emptyStore).1).2) :=
  c3_creation_not_idempotent scenarioAReq 0 1 emptyStore scenarioAItems rfl rfl rfl rfl rfl

/-- C4: whenever the request's `items` is absent or empty, or some item's
price is not a non-negative number, or some item's quantity is not a
positive integer, order creation answers HTTP 400 and pushes no order:
the store is left exactly as it was. -/
theorem c4_invalid_items_rejected (req : CreateOrderReq) (now : ℕ) (st : OrderStore)
    (hbad : badItemsReq req = true) :
    (createOrder req now st).1 = st ∧ respCode (createOrder req now st).2 = 400 := by
  by_cases hu : req.userId.truthy = false
  · constructor <;> simp [createOrder, hu, respCode]
  · rw [Bool.not_eq_false] at hu
    cases hitems : req.items with
    | none => constructor <;> simp [createOrder, hu, hitems, respCode]
    | some items =>
      by_cases hemp : items.isEmpty = true
      · constructor <;> simp [createOrder, hu, hitems, hemp, respCode]
      · by_cases hship : req.shippingAddress.truthy = false
        · constructor <;> simp [createOrder, hu, hitems, hemp, hship, respCode]
        · rw [Bool.not_eq_false] at hship
          cases hv : validateItems items with
          | some msg =>
            constructor <;> simp [createOrder, hu, hitems, hemp, hship, hv, respCode]
          | none =>
            exfalso
            have hnobad := validateItems_none_no_bad items hv
            simp only [badItemsReq, hitems] at hbad
            rw [Bool.or_eq_true] at hbad
            cases hbad with
            | inl h => exact absurd h (by simpa using hemp)
            | inr h => rw [hnobad] at h; exact Bool.false_ne_true h

/-- C4 witness: a request without an `items` field is rejected with 400
and the store is unchanged. -/
theorem c4_witness :
    (createOrder noItemsReq 0 emptyStore).1 = emptyStore
    ∧ respCode (createOrder noItemsReq 0 emptyStore).2 = 400 :=
  c4_invalid_items_rejected noItemsReq 0 emptyStore rfl

/-- C5 counterexample: for a valid request with one item priced 0.001 and
quantity 1, the stored total is Math.round(0.001 * 100) / 100 = 0, not the
item sum 0.001: the handler stores the sum rounded to the nearest cent,
which differs from the exact sum of quantity times unit price. -/
theorem c5_counterexample :
    (createOrder tinyPriceReq 0 emptyStore).2
      = OrderResp.ok 201 (mkOrder tinyPriceReq tinyItems 0 0)
    ∧ (mkOrder tinyPriceReq tinyItems 0 0).total = 0
    ∧ sumItems tinyItems = 1/1000
    ∧ (0 : ℚ) ≠ 1/1000 := by
  refine ⟨rfl, tiny_total, ?_, by norm_num⟩
  simp only [sumItems, tinyItems, List.foldl, JsVal.numVal]
  rw [priceTiny_eq]
  norm_num

/-- C5 (amended): for every valid order-creation request the created
order's stored total equals the sum over all items of quantity times unit
price rounded to the nearest cent (Math.round(sum * 100) / 100) — equal to
the exact sum whenever that sum is a whole number of cents, as in Scenario
A where it is 109.97 — and its initial status is pending. -/
theorem c5_total_rounded_pending (req : CreateOrderReq) (now : ℕ) (st : OrderStore)
    (items : List OrderItem)
    (hi : req.items = some items) (hu : req.userId.truthy = true)
    (hs : req.shippingAddress.truthy = true) (hne : items.isEmpty = false)
    (hv : validateItems items = none) :
    (createOrder req now st).2 = OrderResp.ok 201 (mkOrder req items now st.nextUuid)
    ∧ (mkOrder req items now st.nextUuid).total = roundCents (sumItems items)
    ∧ (mkOrder req items now st.nextUuid).status = "pending" := by
  refine ⟨?_, rfl, rfl⟩
  rw [createOrder_ok req now st items hi hu hs hne hv]

/-- C5 witness: Scenario A (2 units at 29.99 plus 1 unit at 49.99) is
accepted, stores total 109.97 and initial status pending. -/
theorem c5_witness :
    (createOrder scenarioAReq 0 emptyStore).2
      = OrderResp.ok 201 (mkOrder scenarioAReq scenarioAItems 0 0)
    ∧ (mkOrder scenarioAReq scenarioAItems 0 0).total = 10997/100
    ∧ (mkOrder scenarioAReq scenarioAItems 0 0).status = "pending" := by
  have h := c5_total_rounded_pending scenarioAReq 0 emptyStore scenarioAItems rfl rfl rfl rfl rfl
  exact ⟨h.1, by rw [show (mkOrder scenarioAReq scenarioAItems 0 0).total
    = roundCents (sumItems scenarioAItems) from h.2.1]; exact scenarioA_total, h.2.2⟩

/-- C6: the status-changing handlers touch only `status` and `updatedAt`:
at every index of the store, the frame (orderId, userId, items,
shippingAddress, total, createdAt) after a status update or a cancellation
is exactly what it was before, and order creation only appends (the
original prefix of the array is untouched), so the total read at any later
time equals the value computed at creation. -/
theorem c6_frame_immutable :
    ∀ (st : OrderStore) (oid status : String) (now : ℕ),
      (∀ i : ℕ, (((updateOrderStatus oid status now st).1.orders[i]?).map orderFrame)
          = ((st.orders[i]?).map orderFrame))
      ∧ (∀ i : ℕ, (((cancelOrder oid now st).1.orders[i]?).map orderFrame)
          = ((st.orders[i]?).map orderFrame))
      ∧ (∀ req : CreateOrderReq,
          (createOrder req now st).1.orders.take st.orders.length = st.orders) := by
  intro st oid status now
  refine ⟨?_, ?_, ?_⟩
  · intro i
    simp only [updateOrderStatus]
    split
    · rfl
    · split
      · rfl
      · split
        · rfl
        · exact updateFirst_getElem?_map (fun x : Order => x.orderId == oid)
            (fun x : Order => { x with status := status, updatedAt := now })
            orderFrame (fun a => rfl) st.orders i
  · intro i
    simp only [cancelOrder]
    split
    · rfl
    · split
      · rfl
      · exact updateFirst_getElem?_map (fun x : Order => x.orderId == oid)
          (fun x : Order => { x with status := "cancelled", updatedAt := now })
          orderFrame (fun a => rfl) st.orders i
  · intro req
    simp only [createOrder]
    split
    · exact List.take_length st.orders
    · split
      · exact List.take_length st.orders
      · split
        · exact List.take_length st.orders
        · split
          · exact List.take_length st.orders
          · split
            · exact List.take_length st.orders
            · exact List.take_left st.orders _

/-- C7: a queued order-processing message lands in the Dead-Letter
Quarantine exactly when it has been received more than maxReceiveCount
(3) times with the associated order still non-terminal, and the receive
cycle that quarantines a message does not touch the order's status (the
order keeps its last known status). -/
theorem c7_redelivery_bound (outs : List (Option String)) (st0 : String)
    (h0 : isTerminal st0 = false) :
    ((runQueue outs (initMsg st0)).loc = MsgLoc.quarantined ↔
      (maxReceiveCount < (runQueue outs (initMsg st0)).receiveCount
        ∧ isTerminal (runQueue outs (initMsg st0)).orderStatus = false))
    ∧ (∀ (s : MsgState) (out : Option String),
        s.loc = MsgLoc.queued → maxReceiveCount < s.receiveCount + 1 →
          (receiveStep out s).loc = MsgLoc.quarantined
          ∧ (receiveStep out s).orderStatus = s.orderStatus) := by
  have hinv : msgInv (runQueue outs (initMsg st0)) := by
    refine runQueue_inv outs (initMsg st0) ?_
    refine ⟨fun _ => ⟨by simp [initMsg, maxReceiveCount], h0⟩, ?_, ?_⟩
    · intro h; simp [initMsg] at h
    · intro h; simp [initMsg] at h
  obtain ⟨hq, hd, hqr⟩ := hinv
  constructor
  · constructor
    · intro h
      obtain ⟨hrc, hnt⟩ := hqr h
      exact ⟨by rw [hrc]; exact Nat.lt_succ_self _, hnt⟩
    · intro ⟨hrc, hnt⟩
      cases hloc : (runQueue outs (initMsg st0)).loc with
      | queued => exact absurd hrc (Nat.not_lt.mpr (hq hloc).1)
      | deleted => rw [hd hloc] at hnt; exact absurd hnt (by simp)
      | quarantined => rfl
  · intro s out hloc hover
    constructor <;> simp [receiveStep, hloc, hover]

/-- C7 witness: an order stuck in PENDING whose message is received four
times (crashing each time) is quarantined: received more than 3 times and
still non-terminal. -/
theorem c7_witness :
    (runQueue [none, none, none, none] (initMsg "PENDING")).loc = MsgLoc.quarantined ↔
      (maxReceiveCount < (runQueue [none, none, none, none] (initMsg "PENDING")).receiveCount
        ∧ isTerminal (runQueue [none, none, none, none] (initMsg "PENDING")).orderStatus
            = false) :=
  (c7_redelivery_bound [none, none, none, none] "PENDING" rfl).1

/-- C8: every capability step (ReservePayment, ReserveInventory,
CompensatePayment) carries the declared retry policy with maxAttempts 3,
so a transiently failing step is retried at most 3 times, the delay before
retry n is 2 x 2^n seconds, the full backoff schedule is 2s, 4s, 8s, and a
permanent decline is never retried. -/
theorem c8_retry_policy :
    ∀ (step : StepName) (outcomes : ℕ → StepOutcome),
      retriesUsed (stepRetryPolicy step) outcomes ≤ (stepRetryPolicy step).maxAttempts
      ∧ (stepRetryPolicy step).maxAttempts = 3
      ∧ (stepRetryPolicy step).intervalSeconds = 2
      ∧ (stepRetryPolicy step).backoffRate = 2
      ∧ retrySchedule (stepRetryPolicy step) = [2, 4, 8]
      ∧ (∀ n : ℕ, retryDelay (stepRetryPolicy step) n = 2 * 2 ^ n)
      ∧ retriesUsed (stepRetryPolicy step) (fun _ => StepOutcome.permanent) = 0 := by
  intro step outcomes
  refine ⟨?_, rfl, rfl, rfl, ?_, fun n => rfl, rfl⟩
  · calc retriesUsed (stepRetryPolicy step) outcomes
        ≤ (List.range (stepRetryPolicy step).maxAttempts).length :=
          List.Sublist.length_le (List.takeWhile_sublist _)
      _ = (stepRetryPolicy step).maxAttempts := List.length_range _
  · show (List.range 3).map (retryDelay defaultRetryPolicy) = [2, 4, 8]
    rw [show List.range 3 = [0, 1, 2] from rfl]
    simp only [List.map_cons, List.map_nil, retryDelay, defaultRetryPolicy]
    norm_num

/-- C9: starting from the empty cart, every sequence of cart operations
leaves at most one entry per productId; and an add whose productId is
already present does not append: the cart keeps its length and the
matching entry's quantity becomes the old quantity plus the given one. -/
theorem c9_cart_unique_merge :
    (∀ ops : List CartOp, uniquePids (applyCartOps ops))
    ∧ (∀ (req : AddItemReq) (items : List CartItem) (it : CartItem),
        addFieldsMissing req = false →
        items.find? (fun x => x.productId == req.productId) = some it →
          (addCartItem req items).1.length = items.length
          ∧ (addCartItem req items).1.find? (fun x => x.productId == req.productId)
              = some { it with quantity := jsAdd it.quantity req.quantity }) := by
  constructor
  · intro ops
    exact applyCartOps_fold_unique ops [] List.nodup_nil
  · intro req items it hm hfind
    have hfu := find?_updateFirst (fun x : CartItem => x.productId == req.productId)
      (fun x : CartItem => { x with quantity := jsAdd x.quantity req.quantity })
      (fun a => rfl) items
    have hstate : (addCartItem req items).1
        = updateFirst (fun x : CartItem => x.productId == req.productId)
            (fun x : CartItem => { x with quantity := jsAdd x.quantity req.quantity }) items := by
      simp [addCartItem, hm, hfind]
    constructor
    · rw [hstate]
      exact updateFirst_length _ _ items
    · rw [hstate, hfu, hfind]
      rfl

/-- C9 witness: adding product p1 twice to an empty cart leaves a single
entry whose quantity is the sum 1 + 2 = 3, and a concrete operation
sequence keeps productIds unique. -/
theorem c9_witness :
    uniquePids (applyCartOps [CartOp.add cartReq1, CartOp.add cartReq2])
    ∧ (addCartItem cartReq2 cartAfterFirst).1.length = cartAfterFirst.length
    ∧ (addCartItem cartReq2 cartAfterFirst).1.find?
        (fun x => x.productId == cartReq2.productId)
      = some { productId := .vstr "p1", name := .vstr "Apple",
               price := .vnum 5, quantity := jsAdd (.vnum 1) (.vnum 2) } := by
  have h2 := (c9_cart_unique_merge.2 cartReq2 cartAfterFirst
    { productId := .vstr "p1", name := .vstr "Apple", price := .vnum 5, quantity := .vnum 1 }
    rfl rfl)
  exact ⟨c9_cart_unique_merge.1 [CartOp.add cartReq1, CartOp.add cartReq2], h2.1, h2.2⟩

/-- C10: none of register, get-user-by-id or list-users lets the stored
password hash influence the response: on any two user stores whose rows
agree on everything except the stored password field, the three handlers
produce identical response bodies (so no successful response can contain
the stored hash). -/
theorem c10_password_noninterference (s t : List User) (h : samePublic s t) :
    (∀ (id n : ℕ), getUser id { users := s, nextId := n }
        = getUser id { users := t, nextId := n })
    ∧ (∀ n : ℕ, listUsers { users := s, nextId := n }
        = listUsers { users := t, nextId := n })
    ∧ (∀ (un em pw : String) (hash : String → String) (now n : ℕ),
        (registerUser un em pw hash now { users := s, nextId := n }).2
          = (registerUser un em pw hash now { users := t, nextId := n }).2) := by
  refine ⟨?_, ?_, ?_⟩
  · intro id n
    have hf : (s.find? (fun u => u.id == id)).map User.toSafe
        = (t.find? (fun u => u.id == id)).map User.toSafe :=
      find?_toSafe (fun su => su.id == id) s t h
    simp only [getUser]
    cases hs1 : s.find? (fun u => u.id == id) with
    | none =>
      cases ht1 : t.find? (fun u => u.id == id) with
      | none => rfl
      | some v => rw [hs1, ht1] at hf; simp at hf
    | some u =>
      cases ht1 : t.find? (fun u => u.id == id) with
      | none => rw [hs1, ht1] at hf; simp at hf
      | some v =>
        rw [hs1, ht1] at hf
        simp at hf
        show UserResp.okUser 200 u.toSafe = UserResp.okUser 200 v.toSafe
        rw [hf]
  · intro n
    simp only [listUsers, UserResp.okList.injEq]
    exact h
  · intro un em pw hash now n
    have hf : (s.find? (fun u => u.email == em)).map User.toSafe
        = (t.find? (fun u => u.email == em)).map User.toSafe :=
      find?_toSafe (fun su => su.email == em) s t h
    have hsome : (s.find? (fun u => u.email == em)).isSome
        = (t.find? (fun u => u.email == em)).isSome := by
      have := congrArg Option.isSome hf
      simpa using this
    simp only [registerUser]
    split
    · rfl
    · rw [hsome]
      split
      · rfl
      · rfl

/-- C10 witness: two single-user stores that differ only in the stored
password hash answer get-user, list-users and a register request
identically. -/
theorem c10_witness :
    (getUser 1 { users := [alice1], nextId := 2 }
      = getUser 1 { users := [alice2], nextId := 2 })
    ∧ (listUsers { users := [alice1], nextId := 2 }
      = listUsers { users := [alice2], nextId := 2 })
    ∧ ((registerUser "bob" "bob@example.com" "pw" (fun p => p) 7
          { users := [alice1], nextId := 2 }).2
      = (registerUser "bob" "bob@example.com" "pw" (fun p => p) 7
          { users := [alice2], nextId := 2 }).2) := by
  have h := c10_password_noninterference [alice1] [alice2] rfl
  exact ⟨h.1 1 2, h.2.1 2, h.2.2 "bob" "bob@example.com" "pw" (fun p => p) 7 2⟩
